import Mathlib

/-!
Shallow embedding of `src/app.py` (class `EcommerceFilterExtractor` and the URL
gate of `main`) from the ecommerce-filter-extractor repository.

Conventions of the embedding:
* Python strings are Lean `String`; character-level operations go through
  `String.toList` so that slicing and lengths count characters exactly as
  Python does.
* The two outbound network calls (the Zenrows fetch in `scrape_page_content`
  and the OpenAI chat completion in `analyze_with_openai`) are modelled as
  oracles carried by a `World` value: one invocation sees one fixed fetch
  outcome and one response function for the completion API.
* Python exceptions are modelled with `Except String`; a `try/except` block
  becomes a `match` on the `Except` value.
* Standard-library behaviour that the source relies on (`urllib.parse.urlparse`,
  `urllib.parse.parse_qs`, `json.loads`, `re.findall` restricted to the seven
  patterns the source uses) is embedded here following CPython (3.11-line)
  semantics.
-/

set_option autoImplicit false

/-- ASCII lower-casing, as used for scheme normalisation and for the
case-insensitive regex comparisons (the patterns in the source are ASCII). -/
def toLowerChar (c : Char) : Char :=
  if 'A' ≤ c ∧ c ≤ 'Z' then Char.ofNat (c.toNat + 32) else c

def isAsciiAlpha (c : Char) : Bool :=
  ('a' ≤ c ∧ c ≤ 'z') ∨ ('A' ≤ c ∧ c ≤ 'Z')

def isAsciiDigit (c : Char) : Bool :=
  '0' ≤ c ∧ c ≤ '9'

/-- The opening curly brace character (written via its code point). -/
def lbrace : Char := Char.ofNat 123

/-- The closing curly brace character (written via its code point). -/
def rbrace : Char := Char.ofNat 125

/-- Index of the first occurrence of a character, if any. -/
def idxOfChar (c : Char) : List Char → Option Nat
  | [] => none
  | x :: xs => if x = c then some 0 else (idxOfChar c xs).map (· + 1)

/-- Index of the last occurrence of a character, if any (Python `str.rfind`). -/
def lastIdxOfChar (c : Char) : List Char → Option Nat
  | [] => none
  | x :: xs =>
    match lastIdxOfChar c xs with
    | some i => some (i + 1)
    | none => if x = c then some 0 else none

/-- Python `str.split(sep)` for a one-character separator: always returns at
least one piece, empty pieces included. -/
def splitOnChar (c : Char) : List Char → List (List Char)
  | [] => [[]]
  | x :: xs =>
    let r := splitOnChar c xs
    if x = c then [] :: r
    else
      match r with
      | h :: t => (x :: h) :: t
      | [] => [[x]]

/-- Split at the first occurrence of `c` (Python `str.split(c, 1)` when `c`
occurs); the separator is dropped. -/
def splitFirst (c : Char) : List Char → Option (List Char × List Char)
  | [] => none
  | x :: xs =>
    if x = c then some ([], xs)
    else (splitFirst c xs).map (fun p => (x :: p.1, p.2))

/-- Python slicing `s[:n]` (character-based). -/
def pySlice (s : String) (n : Nat) : String :=
  String.mk (s.toList.take n)

/-!
## `urllib.parse.urlparse` (CPython 3.11 line)

`urlsplit` removes the unsafe bytes tab/CR/LF, detects an RFC-style scheme,
extracts the network location after `//`, raises `ValueError("Invalid IPv6
URL")` on mismatched square brackets in the netloc, then splits fragment and
query.  `urlparse` additionally splits the `;parameters` suffix off the path
for schemes that use parameters.  Omitted corners that no code path of the
source depends on: the NFKC netloc check and the 3.11+ validation of the
content of a *balanced* bracketed host (both only ever raise for inputs the
claims never mention).
-/

structure ParseResult where
  scheme : String
  netloc : String
  path : String
  params : String
  query : String
  fragment : String
deriving Repr, DecidableEq

def schemeChars : List Char :=
  ("abcdefghijklmnopqrstuvwxyzABCDEFGHIJKLMNOPQRSTUVWXYZ0123456789+-.").toList

/-- `_splitnetloc`: the netloc runs from position 0 of the given tail (already
past `//`) up to the first `/`, `?` or `#`. -/
def splitNetlocLen : List Char → Nat
  | [] => 0
  | x :: xs =>
    if x = '/' ∨ x = '?' ∨ x = '#' then 0 else splitNetlocLen xs + 1

def headIsAlpha : List Char → Bool
  | [] => false
  | c :: _ => isAsciiAlpha c

def urlsplit (urlStr : String) : Except String ParseResult :=
  let u0 := urlStr.toList.filter (fun c => ¬ (c = '\t' ∨ c = '\r' ∨ c = '\n'))
  -- scheme detection
  let schemeRest : String × List Char :=
    match idxOfChar ':' u0 with
    | some i =>
      if 0 < i ∧ headIsAlpha u0 = true
          ∧ (u0.take i).all (fun c => schemeChars.contains c) = true then
        (String.mk ((u0.take i).map toLowerChar), u0.drop (i + 1))
      else ("", u0)
    | none => ("", u0)
  let scheme := schemeRest.1
  let u1 := schemeRest.2
  -- netloc
  let netlocRest : Except String (List Char × List Char) :=
    match u1 with
    | '/' :: '/' :: tail =>
      let n := splitNetlocLen tail
      let netloc := tail.take n
      if (netloc.contains '[' ∧ ¬ netloc.contains ']')
          ∨ (netloc.contains ']' ∧ ¬ netloc.contains '[') then
        .error "Invalid IPv6 URL"
      else
        .ok (netloc, tail.drop n)
    | _ => .ok ([], u1)
  match netlocRest with
  | .error e => .error e
  | .ok (netloc, u2) =>
    -- fragment (allow_fragments=True), then query
    let fragSplit : List Char × List Char :=
      match splitFirst '#' u2 with
      | some p => p
      | none => (u2, [])
    let querySplit : List Char × List Char :=
      match splitFirst '?' fragSplit.1 with
      | some p => p
      | none => (fragSplit.1, [])
    .ok ⟨scheme, String.mk netloc, String.mk querySplit.1, "",
         String.mk querySplit.2, String.mk fragSplit.2⟩

/-- Schemes for which `urlparse` splits `;parameters` off the last path
segment (`uses_params` in CPython). -/
def usesParams : List String :=
  ["", "ftp", "hdl", "prospero", "http", "imap", "https", "shttp", "rtsp",
   "rtspu", "sip", "sips", "mms", "sftp", "tel"]

/-- `_splitparams`. -/
def splitparams (path : List Char) : List Char × List Char :=
  if path.contains '/' then
    let r := (lastIdxOfChar '/' path).getD 0
    match (idxOfChar ';' (path.drop r)).map (· + r) with
    | some i => (path.take i, path.drop (i + 1))
    | none => (path, [])
  else
    match idxOfChar ';' path with
    | some i => (path.take i, path.drop (i + 1))
    | none => (path, [])

def urlparse (url : String) : Except String ParseResult :=
  (urlsplit url).map fun s =>
    if usesParams.contains s.scheme ∧ s.path.toList.contains ';' then
      let pr := splitparams s.path.toList
      { s with path := String.mk pr.1, params := String.mk pr.2 }
    else s

/-!
## `urllib.parse.parse_qs`

`parse_qsl` splits the query on `&` (the modern single-separator behaviour),
drops empty fields, drops fields without `=` and fields with an empty value
(`keep_blank_values=False`), replaces `+` by a space and percent-decodes both
name and value.  Percent-decoding collects maximal runs of `%XX` escapes and
decodes the resulting byte run as UTF-8 with `errors="replace"`.
`parse_qs` then accumulates the pairs into a mapping in insertion order,
appending repeated keys.
-/

def hexDigitVal (c : Char) : Option Nat :=
  if isAsciiDigit c then some (c.toNat - '0'.toNat)
  else if 'a' ≤ c ∧ c ≤ 'f' then some (c.toNat - 'a'.toNat + 10)
  else if 'A' ≤ c ∧ c ≤ 'F' then some (c.toNat - 'A'.toNat + 10)
  else none

def isUtf8Cont (b : Nat) : Bool := 0x80 ≤ b ∧ b ≤ 0xBF

/-- Worker for UTF-8 decoding with `errors="replace"`: an invalid or truncated
sequence yields U+FFFD for its maximal valid prefix and decoding resumes at
the byte that broke the sequence.  The fuel argument only drives structural
recursion; every step consumes at least one byte, so any fuel of at least
`length + 1` gives the total behaviour. -/
def utf8DecodeAux : Nat → List Nat → List Char
  | 0, _ => []
  | _, [] => []
  | fuel + 1, b :: bs =>
    if b ≤ 0x7F then Char.ofNat b :: utf8DecodeAux fuel bs
    else if 0xC2 ≤ b ∧ b ≤ 0xDF then
      match bs with
      | c1 :: bs1 =>
        if isUtf8Cont c1 then
          Char.ofNat ((b - 0xC0) * 64 + (c1 - 0x80)) :: utf8DecodeAux fuel bs1
        else Char.ofNat 0xFFFD :: utf8DecodeAux fuel bs
      | [] => [Char.ofNat 0xFFFD]
    else if 0xE0 ≤ b ∧ b ≤ 0xEF then
      let lo1 := if b = 0xE0 then 0xA0 else 0x80
      let hi1 := if b = 0xED then 0x9F else 0xBF
      match bs with
      | c1 :: bs1 =>
        if lo1 ≤ c1 ∧ c1 ≤ hi1 then
          match bs1 with
          | c2 :: bs2 =>
            if isUtf8Cont c2 then
              Char.ofNat ((b - 0xE0) * 4096 + (c1 - 0x80) * 64 + (c2 - 0x80)) ::
                utf8DecodeAux fuel bs2
            else Char.ofNat 0xFFFD :: utf8DecodeAux fuel bs1
          | [] => [Char.ofNat 0xFFFD]
        else Char.ofNat 0xFFFD :: utf8DecodeAux fuel bs
      | [] => [Char.ofNat 0xFFFD]
    else if 0xF0 ≤ b ∧ b ≤ 0xF4 then
      let lo1 := if b = 0xF0 then 0x90 else 0x80
      let hi1 := if b = 0xF4 then 0x8F else 0xBF
      match bs with
      | c1 :: bs1 =>
        if lo1 ≤ c1 ∧ c1 ≤ hi1 then
          match bs1 with
          | c2 :: bs2 =>
            if isUtf8Cont c2 then
              match bs2 with
              | c3 :: bs3 =>
                if isUtf8Cont c3 then
                  Char.ofNat ((b - 0xF0) * 262144 + (c1 - 0x80) * 4096 +
                      (c2 - 0x80) * 64 + (c3 - 0x80)) :: utf8DecodeAux fuel bs3
                else Char.ofNat 0xFFFD :: utf8DecodeAux fuel bs2
              | [] => [Char.ofNat 0xFFFD]
            else Char.ofNat 0xFFFD :: utf8DecodeAux fuel bs1
          | [] => [Char.ofNat 0xFFFD]
        else Char.ofNat 0xFFFD :: utf8DecodeAux fuel bs
      | [] => [Char.ofNat 0xFFFD]
    else Char.ofNat 0xFFFD :: utf8DecodeAux fuel bs

def utf8DecodeReplace (bs : List Nat) : List Char :=
  utf8DecodeAux (bs.length + 1) bs

/-- Worker for `unquote`: the accumulator holds the current (reversed) run of
consecutive `%XX` bytes, which is decoded as one UTF-8 unit when the run
ends. -/
def unquoteAux : List Char → List Nat → List Char
  | [], run => utf8DecodeReplace run.reverse
  | '%' :: c1 :: c2 :: rest, run =>
    match hexDigitVal c1, hexDigitVal c2 with
    | some h, some l => unquoteAux rest ((h * 16 + l) :: run)
    | _, _ => utf8DecodeReplace run.reverse ++ '%' :: unquoteAux (c1 :: c2 :: rest) []
  | c :: rest, run => utf8DecodeReplace run.reverse ++ c :: unquoteAux rest []

def unquoteList (l : List Char) : List Char := unquoteAux l []

/-- `urllib.parse.unquote` (UTF-8, `errors="replace"`). -/
def unquote (s : String) : String := String.mk (unquoteList s.toList)

def plusToSpace (l : List Char) : List Char :=
  l.map (fun c => if c = '+' then ' ' else c)

/-- `urllib.parse.parse_qsl` with the default arguments used by the source
(`keep_blank_values=False`, `strict_parsing=False`, separator `&`). -/
def parse_qsl (qs : String) : List (String × String) :=
  (splitOnChar '&' qs.toList).foldr
    (fun field acc =>
      if field = [] then acc
      else
        match splitFirst '=' field with
        | none => acc
        | some (name, value) =>
          if value = [] then acc
          else
            (String.mk (unquoteList (plusToSpace name)),
             String.mk (unquoteList (plusToSpace value))) :: acc)
    []

/-- Association-list lookup (first match). -/
def alookup {α : Type} : List (String × α) → String → Option α
  | [], _ => none
  | (k, v) :: rest, key => if k = key then some v else alookup rest key

def containsKey {α : Type} (m : List (String × α)) (key : String) : Bool :=
  (alookup m key).isSome

/-- One step of the dict accumulation in `parse_qs`: append to an existing
key, or add a new key at the end (insertion order). -/
def qsInsert (m : List (String × List String)) (k v : String) :
    List (String × List String) :=
  if containsKey m k then
    m.map (fun kv => if kv.1 = k then (kv.1, kv.2 ++ [v]) else kv)
  else m ++ [(k, [v])]

/-- `urllib.parse.parse_qs`. -/
def parse_qs (qs : String) : List (String × List String) :=
  (parse_qsl qs).foldl (fun m kv => qsInsert m kv.1 kv.2) []

/-!
## `EcommerceFilterExtractor.extract_url_parameters` (src/app.py lines 24-40)
-/

/-- A value of the `parameters` mapping: `parse_qs` value lists of length one
are collapsed to the scalar, all others are kept as lists. -/
inductive ParamVal where
  | str (v : String)
  | strs (vs : List String)
deriving Repr, DecidableEq

/-- The `clean_params` loop of `extract_url_parameters`. -/
def collapseVal (vs : List String) : ParamVal :=
  match vs with
  | [v] => ParamVal.str v
  | _ => ParamVal.strs vs

def cleanParams (m : List (String × List String)) : List (String × ParamVal) :=
  m.map (fun kv => (kv.1, collapseVal kv.2))

structure UrlAnalysis where
  domain : String
  path : String
  parameters : List (String × ParamVal)
deriving Repr, DecidableEq

/-- `extract_url_parameters`: note that `domain` is `parsed_url.netloc` and
`path` is `parsed_url.path`; a `urlparse` exception propagates to the caller
(the method has no `try` block). -/
def extract_url_parameters (url : String) : Except String UrlAnalysis :=
  (urlparse url).map fun p =>
    ⟨p.netloc, p.path, cleanParams (parse_qs p.query)⟩

/-!
## The regex engine behind `extract_filter_elements` (src/app.py lines 59-80)

The seven patterns of the source use exactly these constructs: literal text,
`[^c]*` (greedy, with backtracking), `.*?` (lazy, `re.DOTALL` so it crosses
newlines), and one alternation-of-literals lookahead `(?=...)`.  `re.findall`
with `re.IGNORECASE` is embedded for precisely this fragment: matching is
leftmost, a greedy star prefers the longest extension and a lazy star the
shortest, and scanning resumes at the end of each (non-empty) match.
Comparisons lower-case both sides (the patterns are pure ASCII).
-/

inductive RE where
  /-- a literal, matched case-insensitively -/
  | lit (s : String)
  /-- `[^cs]*`, greedy -/
  | notStar (cs : List Char)
  /-- `.*?` under `re.DOTALL` -/
  | lazyStar
  /-- `(?=a|b|...)`: zero-width lookahead over literal alternatives -/
  | look (alts : List String)

/-- Consume a literal case-insensitively, returning the consumed input
characters (in original case) and the rest of the input. -/
def litMatchCI : List Char → List Char → Option (List Char × List Char)
  | [], s => some ([], s)
  | _ :: _, [] => none
  | c :: cs, x :: xs =>
    if toLowerChar c = toLowerChar x then
      (litMatchCI cs xs).map (fun p => (x :: p.1, p.2))
    else none

/-- Split off the maximal run of characters not in `cs`, returning the run
reversed (accumulator style, so evaluation is iterative). -/
def runSplitRev (cs : List Char) : List Char → List Char → List Char × List Char
  | acc, [] => (acc, [])
  | acc, x :: xs =>
    if cs.contains x then (acc, x :: xs) else runSplitRev cs (x :: acc) xs

/-- Candidate splits for a greedy star whose maximal run is `revPre.reverse`:
longest kept prefix first, then one run character at a time is given back to
the suffix. -/
def descSplits : List Char → List Char → List (List Char × List Char)
  | [], suf => [([], suf)]
  | c :: revRest, suf => ((c :: revRest).reverse, suf) :: descSplits revRest (c :: suf)

/-- Candidate splits for a lazy star: shortest consumed prefix first. -/
def ascSplits : List Char → List Char → List (List Char × List Char)
  | revPre, [] => [(revPre.reverse, [])]
  | revPre, c :: t => (revPre.reverse, c :: t) :: ascSplits (c :: revPre) t

/-- First success of `f` over a list of candidate splits. -/
def firstSplit {α : Type} (f : List Char → List Char → Option α) :
    List (List Char × List Char) → Option α
  | [] => none
  | q :: qs =>
    match f q.1 q.2 with
    | some r => some r
    | none => firstSplit f qs

/-- Match a pattern at the start of the input; `some (m, rest)` means the
match consumed exactly `m`, leaving `rest`.  Backtracking: a greedy star
tries the longest split first, a lazy star the shortest. -/
def matchSeq : List RE → List Char → Option (List Char × List Char)
  | [], s => some ([], s)
  | RE.lit w :: rest, s =>
    match litMatchCI w.toList s with
    | none => none
    | some (m, s2) => (matchSeq rest s2).map (fun p => (m ++ p.1, p.2))
  | RE.look alts :: rest, s =>
    if alts.any (fun a => (litMatchCI a.toList s).isSome) then matchSeq rest s
    else none
  | RE.notStar cs :: rest, s =>
    match runSplitRev cs [] s with
    | (revPre, suf) =>
      firstSplit (fun pre suf2 => (matchSeq rest suf2).map (fun p => (pre ++ p.1, p.2)))
        (descSplits revPre suf)
  | RE.lazyStar :: rest, s =>
    firstSplit (fun pre suf2 => (matchSeq rest suf2).map (fun p => (pre ++ p.1, p.2)))
      (ascSplits [] s)

/-- `re.findall` scanning loop: leftmost match, resume after the match; a
zero-width match advances one character (defensive, the source patterns can
only match non-empty text).  Fuel-driven; `length + 1` fuel is always
enough because every step consumes at least one character. -/
def scanAllAux (pat : List RE) : Nat → List Char → List (List Char)
  | 0, _ => []
  | fuel + 1, s =>
    match matchSeq pat s with
    | some (m, rest) =>
      match m with
      | [] =>
        match s with
        | [] => [[]]
        | _ :: t => [] :: scanAllAux pat fuel t
      | _ :: _ => m :: scanAllAux pat fuel rest
    | none =>
      match s with
      | [] => []
      | _ :: t => scanAllAux pat fuel t

def scanAll (pat : List RE) (s : List Char) : List (List Char) :=
  scanAllAux pat (s.length + 1) s

/-- Pattern 1: `<div[^>]*class="[^"]*filter[^"]*"[^>]*>.*?</div>` -/
def reDivFilter : List RE :=
  [RE.lit "<div", RE.notStar ['>'], RE.lit "class=\"", RE.notStar ['"'],
   RE.lit "filter", RE.notStar ['"'], RE.lit "\"", RE.notStar ['>'],
   RE.lit ">", RE.lazyStar, RE.lit "</div>"]

/-- Pattern 2: `<aside[^>]*class="[^"]*sidebar[^"]*"[^>]*>.*?</aside>` -/
def reAsideSidebar : List RE :=
  [RE.lit "<aside", RE.notStar ['>'], RE.lit "class=\"", RE.notStar ['"'],
   RE.lit "sidebar", RE.notStar ['"'], RE.lit "\"", RE.notStar ['>'],
   RE.lit ">", RE.lazyStar, RE.lit "</aside>"]

/-- Pattern 3: `<form[^>]*class="[^"]*filter[^"]*"[^>]*>.*?</form>` -/
def reFormFilter : List RE :=
  [RE.lit "<form", RE.notStar ['>'], RE.lit "class=\"", RE.notStar ['"'],
   RE.lit "filter", RE.notStar ['"'], RE.lit "\"", RE.notStar ['>'],
   RE.lit ">", RE.lazyStar, RE.lit "</form>"]

/-- Pattern 4: `<div[^>]*class="[^"]*facet[^"]*"[^>]*>.*?</div>` -/
def reDivFacet : List RE :=
  [RE.lit "<div", RE.notStar ['>'], RE.lit "class=\"", RE.notStar ['"'],
   RE.lit "facet", RE.notStar ['"'], RE.lit "\"", RE.notStar ['>'],
   RE.lit ">", RE.lazyStar, RE.lit "</div>"]

/-- Pattern 5: `<select[^>]*name="[^"]*"[^>]*>.*?</select>` -/
def reSelectName : List RE :=
  [RE.lit "<select", RE.notStar ['>'], RE.lit "name=\"", RE.notStar ['"'],
   RE.lit "\"", RE.notStar ['>'], RE.lit ">", RE.lazyStar, RE.lit "</select>"]

/-- Pattern 6: `<input[^>]*type="checkbox"[^>]*>.*?(?=<input|</div>|</form>)` -/
def reInputCheckbox : List RE :=
  [RE.lit "<input", RE.notStar ['>'], RE.lit "type=\"checkbox\"",
   RE.notStar ['>'], RE.lit ">", RE.lazyStar,
   RE.look ["<input", "</div>", "</form>"]]

/-- Pattern 7: `<ul[^>]*class="[^"]*category[^"]*"[^>]*>.*?</ul>` -/
def reUlCategory : List RE :=
  [RE.lit "<ul", RE.notStar ['>'], RE.lit "class=\"", RE.notStar ['"'],
   RE.lit "category", RE.notStar ['"'], RE.lit "\"", RE.notStar ['>'],
   RE.lit ">", RE.lazyStar, RE.lit "</ul>"]

/-- The seven `filter_patterns` of the source, in order. -/
def filter_patterns : List (List RE) :=
  [reDivFilter, reAsideSidebar, reFormFilter, reDivFacet, reSelectName,
   reInputCheckbox, reUlCategory]

/-- `re.findall(pattern, html, re.DOTALL | re.IGNORECASE)` as a list of
matched strings. -/
def findallMatches (pat : List RE) (html : String) : List String :=
  (scanAll pat html.toList).map String.mk

/-- The `extracted_elements` accumulation loop of `extract_filter_elements`. -/
def allMatches (html : String) : List String :=
  filter_patterns.foldl (fun acc p => acc ++ findallMatches p html) []

/-- Python `' '.join(pieces)`. -/
def spaceJoin : List String → String
  | [] => ""
  | [s] => s
  | s :: rest => s ++ " " ++ spaceJoin rest

/-- `EcommerceFilterExtractor.extract_filter_elements`: empty (falsy) input
short-circuits to the empty string, otherwise the matches of the seven
patterns are joined with single spaces and the result is cut to the first
8000 characters. -/
def extract_filter_elements (html_content : String) : String :=
  if html_content = "" then ""
  else
    let content := spaceJoin (allMatches html_content)
    pySlice content 8000

/-!
## JSON values and `json.loads`

`json.loads` with default arguments: strict strings (raw control characters
rejected, `\uXXXX` escapes with surrogate pairs), the standard number grammar
(plus the `NaN`/`Infinity`/`-Infinity` constants), objects and arrays, and a
trailing-garbage check ("Extra data").  Floats are kept as their literal text
(no claim observes float arithmetic); a lone `\uXXXX` surrogate becomes
U+FFFD because a Lean `Char` cannot hold a surrogate code point.  Error
messages are abbreviated forms of the CPython ones; no claim depends on the
message text.
-/

inductive JsonV where
  | null
  | bool (b : Bool)
  | int (n : Int)
  | float (raw : String)
  | str (s : String)
  | arr (elems : List JsonV)
  | obj (fields : List (String × JsonV))

def isJsonWs (c : Char) : Bool := c = ' ' ∨ c = '\t' ∨ c = '\n' ∨ c = '\r'

def skipWs (l : List Char) : List Char := l.dropWhile isJsonWs

/-- Consume a literal, case-sensitively. -/
def pfx : List Char → List Char → Option (List Char)
  | [], s => some s
  | _ :: _, [] => none
  | c :: cs, x :: xs => if c = x then pfx cs xs else none

def spanDigits : List Char → List Char × List Char
  | [] => ([], [])
  | c :: rest =>
    if isAsciiDigit c then
      let r := spanDigits rest
      (c :: r.1, r.2)
    else ([], c :: rest)

def digitsToNat (l : List Char) : Nat :=
  l.foldl (fun a c => a * 10 + (c.toNat - '0'.toNat)) 0

def parseHex4 : List Char → Option (Nat × List Char)
  | a :: b :: c :: d :: rest =>
    match hexDigitVal a, hexDigitVal b, hexDigitVal c, hexDigitVal d with
    | some x, some y, some z, some w => some (x * 4096 + y * 256 + z * 16 + w, rest)
    | _, _, _, _ => none
  | _ => none

/-- String body parser (after the opening quote); returns the decoded
characters and the input after the closing quote. -/
def parseJStringAux : Nat → List Char → Except String (List Char × List Char)
  | 0, _ => .error "json parser fuel exhausted"
  | fuel + 1, s =>
    match s with
    | [] => .error "Unterminated string"
    | c :: rest =>
      if c = '"' then .ok ([], rest)
      else if c = '\\' then
        match rest with
        | [] => .error "Unterminated string"
        | e :: rest2 =>
          let simple : Option Char :=
            if e = '"' then some '"'
            else if e = '\\' then some '\\'
            else if e = '/' then some '/'
            else if e = 'b' then some (Char.ofNat 8)
            else if e = 'f' then some (Char.ofNat 12)
            else if e = 'n' then some '\n'
            else if e = 'r' then some '\r'
            else if e = 't' then some '\t'
            else none
          match simple with
          | some ch =>
            (parseJStringAux fuel rest2).map (fun p => (ch :: p.1, p.2))
          | none =>
            if e = 'u' then
              match parseHex4 rest2 with
              | none => .error "Invalid unicode escape"
              | some (v, rest3) =>
                if 0xD800 ≤ v ∧ v ≤ 0xDBFF then
                  match rest3 with
                  | '\\' :: 'u' :: rest4 =>
                    match parseHex4 rest4 with
                    | some (w, rest5) =>
                      if 0xDC00 ≤ w ∧ w ≤ 0xDFFF then
                        (parseJStringAux fuel rest5).map (fun p =>
                          (Char.ofNat (0x10000 + (v - 0xD800) * 1024 + (w - 0xDC00)) :: p.1, p.2))
                      else
                        (parseJStringAux fuel rest3).map (fun p => (Char.ofNat 0xFFFD :: p.1, p.2))
                    | none =>
                      (parseJStringAux fuel rest3).map (fun p => (Char.ofNat 0xFFFD :: p.1, p.2))
                  | _ =>
                    (parseJStringAux fuel rest3).map (fun p => (Char.ofNat 0xFFFD :: p.1, p.2))
                else if 0xDC00 ≤ v ∧ v ≤ 0xDFFF then
                  (parseJStringAux fuel rest3).map (fun p => (Char.ofNat 0xFFFD :: p.1, p.2))
                else
                  (parseJStringAux fuel rest3).map (fun p => (Char.ofNat v :: p.1, p.2))
            else .error "Invalid escape"
      else if c.toNat < 0x20 then .error "Invalid control character"
      else (parseJStringAux fuel rest).map (fun p => (c :: p.1, p.2))

/-- The JSON number grammar `-?(0|[1-9][0-9]*)(\.[0-9]+)?([eE][+-]?[0-9]+)?`;
an integer literal becomes `.int`, anything with a fraction or exponent is
kept as literal text under `.float`. -/
def parseJNumber (s : List Char) : Except String (JsonV × List Char) :=
  let negS : Bool × List Char :=
    match s with
    | '-' :: t => (true, t)
    | _ => (false, s)
  match negS.2 with
  | [] => .error "Expecting value"
  | c :: rest =>
    if ¬ isAsciiDigit c then .error "Expecting value"
    else
      let ipart : List Char × List Char :=
        if c = '0' then (['0'], rest)
        else
          let r := spanDigits rest
          (c :: r.1, r.2)
      let fpart : List Char × List Char :=
        match ipart.2 with
        | '.' :: t =>
          let r := spanDigits t
          if r.1 = [] then ([], ipart.2) else ('.' :: r.1, r.2)
        | _ => ([], ipart.2)
      let epart : List Char × List Char :=
        match fpart.2 with
        | e :: t =>
          if e = 'e' ∨ e = 'E' then
            match t with
            | sg :: t2 =>
              if sg = '+' ∨ sg = '-' then
                let r := spanDigits t2
                if r.1 = [] then ([], fpart.2) else (e :: sg :: r.1, r.2)
              else
                let r := spanDigits t
                if r.1 = [] then ([], fpart.2) else (e :: r.1, r.2)
            | [] => ([], fpart.2)
          else ([], fpart.2)
        | [] => ([], fpart.2)
      if fpart.1 = [] ∧ epart.1 = [] then
        .ok (JsonV.int (if negS.1 then -(digitsToNat ipart.1 : Int) else (digitsToNat ipart.1 : Int)),
             ipart.2)
      else
        .ok (JsonV.float (String.mk ((if negS.1 then ['-'] else []) ++ ipart.1 ++ fpart.1 ++ epart.1)),
             epart.2)

mutual

def parseJValue : Nat → List Char → Except String (JsonV × List Char)
  | 0, _ => .error "json parser fuel exhausted"
  | fuel + 1, s =>
    match s with
    | [] => .error "Expecting value"
    | c :: rest =>
      if c = '"' then
        (parseJStringAux fuel rest).map (fun p => (JsonV.str (String.mk p.1), p.2))
      else if c = lbrace then parseJObjBody fuel (skipWs rest) []
      else if c = '[' then parseJArrBody fuel (skipWs rest) []
      else if c = 't' then
        match pfx "true".toList s with
        | some r => .ok (JsonV.bool true, r)
        | none => .error "Expecting value"
      else if c = 'f' then
        match pfx "false".toList s with
        | some r => .ok (JsonV.bool false, r)
        | none => .error "Expecting value"
      else if c = 'n' then
        match pfx "null".toList s with
        | some r => .ok (JsonV.null, r)
        | none => .error "Expecting value"
      else if c = 'N' then
        match pfx "NaN".toList s with
        | some r => .ok (JsonV.float "NaN", r)
        | none => .error "Expecting value"
      else if c = 'I' then
        match pfx "Infinity".toList s with
        | some r => .ok (JsonV.float "Infinity", r)
        | none => .error "Expecting value"
      else if c = '-' then
        match pfx "-Infinity".toList s with
        | some r => .ok (JsonV.float "-Infinity", r)
        | none => parseJNumber s
      else parseJNumber s

/-- Object members, after the opening brace and leading whitespace. -/
def parseJObjBody : Nat → List Char → List (String × JsonV) →
    Except String (JsonV × List Char)
  | 0, _, _ => .error "json parser fuel exhausted"
  | fuel + 1, s, acc =>
    match s with
    | c :: rest =>
      if c = rbrace ∧ acc.isEmpty = true then .ok (JsonV.obj [], rest)
      else if c = '"' then
        match parseJStringAux fuel rest with
        | .error e => .error e
        | .ok (key, r1) =>
          match skipWs r1 with
          | ':' :: r2 =>
            match parseJValue fuel (skipWs r2) with
            | .error e => .error e
            | .ok (v, r3) =>
              let acc2 := acc ++ [(String.mk key, v)]
              match skipWs r3 with
              | ',' :: r4 => parseJObjBody fuel (skipWs r4) acc2
              | d :: r5 =>
                if d = rbrace then .ok (JsonV.obj acc2, r5)
                else .error "Expecting comma delimiter"
              | [] => .error "Expecting comma delimiter"
          | _ => .error "Expecting colon delimiter"
      else .error "Expecting property name enclosed in double quotes"
    | [] =>
      if acc.isEmpty = true then .error "Expecting property name enclosed in double quotes"
      else .error "Expecting comma delimiter"

/-- Array elements, after the opening bracket and leading whitespace. -/
def parseJArrBody : Nat → List Char → List JsonV → Except String (JsonV × List Char)
  | 0, _, _ => .error "json parser fuel exhausted"
  | fuel + 1, s, acc =>
    match s with
    | c :: rest =>
      if c = ']' ∧ acc.isEmpty = true then .ok (JsonV.arr [], rest)
      else
        match parseJValue fuel s with
        | .error e => .error e
        | .ok (v, r1) =>
          let acc2 := acc ++ [v]
          match skipWs r1 with
          | ',' :: r2 => parseJArrBody fuel (skipWs r2) acc2
          | ']' :: r3 => .ok (JsonV.arr acc2, r3)
          | _ => .error "Expecting comma delimiter"
    | [] => .error "Expecting value"

end

/-- `json.loads`. -/
def jsonLoads (s : String) : Except String JsonV :=
  match parseJValue ((s.toList.length + 1) * 4) (skipWs s.toList) with
  | .error e => .error e
  | .ok (v, rest) => if skipWs rest = [] then .ok v else .error "Extra data"

/-!
## `EcommerceFilterExtractor.analyze_with_openai` (src/app.py lines 82-174)

The OpenAI chat-completion call is an oracle `aiCall : String → Except String
String`: it receives the prompt the method builds and answers either with the
response text (`response.choices[0].message.content`) or with an exception
message (covering API errors and any other throw inside the `try` block).
The method then strips the text, searches for the first brace-delimited
substring (the regex `\x7b.*\x7d` with `re.DOTALL`: from the first opening
brace to the last closing brace after it), and `json.loads` it — falling back
to `json.loads` of the whole stripped text when no braced substring exists.
Every failure is caught and becomes the structured object
`\x7b"error": str(e)\x7d`.
-/

/-- Python `str.strip()` (ASCII whitespace; the exotic unicode spaces are not
relevant to any claim). -/
def pyStripChars : List Char := [' ', '\t', '\n', '\r', Char.ofNat 0x0B, Char.ofNat 0x0C]

def pyStrip (s : String) : String :=
  String.mk
    (((s.toList.dropWhile (fun c => pyStripChars.contains c)).reverse.dropWhile
        (fun c => pyStripChars.contains c)).reverse)

/-- `re.search(r'\x7b.*\x7d', content, re.DOTALL)`: greedy, so the match runs
from the first opening brace to the last closing brace (when one follows). -/
def braceSearch (s : String) : Option String :=
  let cs := s.toList
  match idxOfChar lbrace cs, lastIdxOfChar rbrace cs with
  | some i, some j => if i < j then some (String.mk ((cs.drop i).take (j - i + 1))) else none
  | _, _ => none

/-- `json.dumps` string escaping with `ensure_ascii=True`. -/
def hexDigitChar (n : Nat) : Char :=
  if n < 10 then Char.ofNat ('0'.toNat + n) else Char.ofNat ('a'.toNat + n - 10)

def toHex4 (n : Nat) : List Char :=
  [hexDigitChar (n / 4096 % 16), hexDigitChar (n / 256 % 16),
   hexDigitChar (n / 16 % 16), hexDigitChar (n % 16)]

def jsonEscapeChar (c : Char) : List Char :=
  if c = '"' then ['\\', '"']
  else if c = '\\' then ['\\', '\\']
  else if c = '\n' then ['\\', 'n']
  else if c = '\r' then ['\\', 'r']
  else if c = '\t' then ['\\', 't']
  else if c = Char.ofNat 8 then ['\\', 'b']
  else if c = Char.ofNat 12 then ['\\', 'f']
  else if 0x20 ≤ c.toNat ∧ c.toNat < 0x7F then [c]
  else if c.toNat ≤ 0xFFFF then '\\' :: 'u' :: toHex4 c.toNat
  else
    ('\\' :: 'u' :: toHex4 (0xD800 + (c.toNat - 0x10000) / 1024)) ++
      ('\\' :: 'u' :: toHex4 (0xDC00 + (c.toNat - 0x10000) % 1024))

def jsonQuote (s : String) : String :=
  String.mk ('"' :: s.toList.foldr (fun c acc => jsonEscapeChar c ++ acc) ['"'])

def lbraceS : String := String.mk [lbrace]

def rbraceS : String := String.mk [rbrace]

/-- `json.dumps(url_params, indent=2)` for the parameters mapping produced by
`extract_url_parameters` (string or list-of-string values). -/
def dumpsParamVal : ParamVal → String
  | .str v => jsonQuote v
  | .strs vs =>
    match vs with
    | [] => "[]"
    | _ => "[\n    " ++ String.intercalate ",\n    " (vs.map jsonQuote) ++ "\n  ]"

def dumpsParams (m : List (String × ParamVal)) : String :=
  match m with
  | [] => lbraceS ++ rbraceS
  | _ =>
    lbraceS ++ "\n  " ++
      String.intercalate ",\n  "
        (m.map (fun kv => jsonQuote kv.1 ++ ": " ++ dumpsParamVal kv.2)) ++
      "\n" ++ rbraceS

/-- The fixed JSON-schema block of the prompt (the doubled braces of the
f-string are literal braces, written here as escapes). -/
def promptSchemaText : String :=
  "\x7b\n    \"filters\": \x7b\n        \"price\": \x7b\n            \"type\": \"range\",\n            \"min\": null,\n            \"max\": null,\n            \"current_min\": null,\n            \"current_max\": null\n        \x7d,\n        \"categories\": \x7b\n            \"type\": \"select\",\n            \"options\": [],\n            \"selected\": []\n        \x7d,\n        \"brands\": \x7b\n            \"type\": \"multiselect\",\n            \"options\": [],\n            \"selected\": []\n        \x7d,\n        \"colors\": \x7b\n            \"type\": \"multiselect\",\n            \"options\": [],\n            \"selected\": []\n        \x7d,\n        \"sizes\": \x7b\n            \"type\": \"multiselect\", \n            \"options\": [],\n            \"selected\": []\n        \x7d,\n        \"rating\": \x7b\n            \"type\": \"range\",\n            \"min\": 1,\n            \"max\": 5,\n            \"current\": null\n        \x7d,\n        \"availability\": \x7b\n            \"type\": \"boolean\",\n            \"options\": [\"in_stock\", \"out_of_stock\"],\n            \"selected\": null\n        \x7d\n    \x7d,\n    \"active_filters\": \x7b\x7d,\n    \"filter_count\": 0,\n    \"sort_options\": [],\n    \"current_sort\": null\n\x7d"

def promptInstructionsText : String :=
  "\n\nInstrucciones:\n1. Identifica TODOS los filtros disponibles en la página\n2. Determina el tipo de cada filtro (range, select, multiselect, boolean)\n3. Extrae las opciones disponibles para cada filtro\n4. Identifica qué filtros están actualmente aplicados\n5. Incluye opciones de ordenamiento si las encuentras\n6. Si un filtro no existe en la página, no lo incluyas en la respuesta\n\nResponde SOLO con el JSON válido, sin explicaciones adicionales.\n"

/-- The user-message f-string of `analyze_with_openai` (the model name,
system message, temperature 0.1 and max_tokens 2000 are fixed arguments of
the external call and are not data-dependent). -/
def ai_prompt (url : String) (paramsDump : String) (filter_elements : String) : String :=
  "\nAnaliza esta página de ecommerce y extrae todos los filtros disponibles de forma estructurada.\n\nURL: " ++
    url ++ "\nParámetros de URL detectados: " ++ paramsDump ++
    "\n\nElementos HTML relevantes:\n" ++ pySlice filter_elements 6000 ++
    "\n\nExtrae y estructura los filtros en el siguiente formato JSON:\n" ++
    promptSchemaText ++ promptInstructionsText

/-- The response-processing tail of the `try` block of `analyze_with_openai`,
including the `except` clause that turns any failure into an error object. -/
def processAiResponse (resp : Except String String) : JsonV :=
  match resp with
  | .error e => JsonV.obj [("error", JsonV.str e)]
  | .ok text =>
    let content := pyStrip text
    match braceSearch content with
    | some matched =>
      match jsonLoads matched with
      | .ok v => v
      | .error e => JsonV.obj [("error", JsonV.str e)]
    | none =>
      match jsonLoads content with
      | .ok v => v
      | .error e => JsonV.obj [("error", JsonV.str e)]

/-- `analyze_with_openai`: builds the prompt from the URL, the dumped URL
parameters and the extracted filter elements, consults the completion oracle
and processes the outcome.  It is total: every exception inside it is caught
(`except Exception`). -/
def analyze_with_openai (aiCall : String → Except String String) (url : String)
    (html_content : String) (url_params : List (String × ParamVal)) : JsonV :=
  let filter_elements := extract_filter_elements html_content
  processAiResponse (aiCall (ai_prompt url (dumpsParams url_params) filter_elements))

/-- Decides that a completion-API outcome makes the interpreter fail: an API
error, a response with no parseable JSON at all, or a braced substring that
is malformed JSON. -/
def aiRespFails (resp : Except String String) : Bool :=
  match resp with
  | .error _ => true
  | .ok text =>
    let content := pyStrip text
    match braceSearch content with
    | some matched =>
      match jsonLoads matched with
      | .ok _ => false
      | .error _ => true
    | none =>
      match jsonLoads content with
      | .ok _ => false
      | .error _ => true

/-!
## `EcommerceFilterExtractor.scrape_page_content` (src/app.py lines 42-57)
and the pipeline orchestrator `extract_filters` (lines 176-209)

The fetch oracle distinguishes the three outcomes the code can see: a
response body, a `requests.RequestException` (which `scrape_page_content`
catches itself, returning `None`), and any other exception (which propagates
to the `try` block of `extract_filters`).
-/

inductive FetchResp where
  /-- `requests.get` returned and `raise_for_status` passed: the body text -/
  | ok (text : String)
  /-- a `requests.RequestException`: caught inside `scrape_page_content` -/
  | reqErr (msg : String)
  /-- any other exception: propagates out of `scrape_page_content` -/
  | exn (msg : String)
deriving Repr, DecidableEq

def scrape_page_content (r : FetchResp) : Except String (Option String) :=
  match r with
  | .ok text => .ok (some text)
  | .reqErr _ => .ok none
  | .exn m => .error m

/-- The external world one invocation runs against: the timestamp
(`datetime.now().isoformat()`), the fetch outcome, and the completion-API
response as a function of the prompt. -/
structure World where
  timestamp : String
  fetchResp : FetchResp
  aiCall : String → Except String String

/-- Instrumentation: how often the orchestrator invoked the fetcher
(`scrape_page_content`, hence the network) and the interpreter
(`analyze_with_openai`). -/
structure CallLog where
  scrape_calls : Nat
  analyze_calls : Nat
deriving Repr, DecidableEq

/-- The result envelope built by `extract_filters`.  `url_analysis = none`
models the initial `{}` placeholder (still present when `urlparse` raised
before the assignment); `filters` starts as the empty object. -/
structure ResultEnvelope where
  url : String
  timestamp : String
  url_analysis : Option UrlAnalysis
  filters : JsonV
  success : Bool
  error : Option String

/-- Python truthiness of the `html_content` value: `None` and the empty
string are falsy. -/
def pyTruthy : Option String → Bool
  | none => false
  | some t => if t = "" then false else true

/-- The fetch-failure message of lines 200-201. -/
def noContentMsg : String := "No se pudo obtener el contenido de la página"

/-- The parameters mapping (a Python dict of strings and lists of strings) as
a JSON-like value, for embedding into the `filters` field of the envelope. -/
def paramsToJson (m : List (String × ParamVal)) : JsonV :=
  JsonV.obj (m.map (fun kv => (kv.1,
    match kv.2 with
    | .str v => JsonV.str v
    | .strs vs => JsonV.arr (vs.map JsonV.str))))

/-- `extract_filters`: the envelope is initialised, then the `try` block runs
URL analysis, optionally fetch + interpretation, and any exception is caught
at the outermost level with the fields mutated so far left in place. -/
def extract_filters (w : World) (url : String) (include_html_analysis : Bool) :
    ResultEnvelope × CallLog :=
  let base : ResultEnvelope :=
    ⟨url, w.timestamp, none, JsonV.obj [], false, none⟩
  match extract_url_parameters url with
  | .error e => ({ base with error := some e }, ⟨0, 0⟩)
  | .ok ua =>
    let r1 := { base with url_analysis := some ua }
    if include_html_analysis then
      match scrape_page_content w.fetchResp with
      | .error e => ({ r1 with error := some e }, ⟨1, 0⟩)
      | .ok html_content =>
        if pyTruthy html_content then
          let ai := analyze_with_openai w.aiCall url (html_content.getD "") ua.parameters
          ({ r1 with filters := ai, success := true }, ⟨1, 1⟩)
        else
          ({ r1 with error := some noContentMsg }, ⟨1, 0⟩)
    else
      ({ r1 with filters := JsonV.obj [("url_parameters", paramsToJson ua.parameters)],
                 success := true }, ⟨0, 0⟩)

/-- The URL gate of `main` (src/app.py lines 292-296): analysis proceeds only
when `urlparse` succeeds (a `ValueError` is caught by the surrounding
`except` of `main`) and both scheme and netloc are truthy. -/
def main_url_gate (url : String) : Bool :=
  match urlparse url with
  | .error _ => false
  | .ok p => ¬ p.scheme = "" ∧ ¬ p.netloc = ""

/-- A concrete world whose fetch fails with a transport error. -/
def failWorld : World :=
  ⟨"2024-05-01T12:00:00", FetchResp.reqErr "connection error",
   fun _ => Except.error "api unreachable"⟩

/-- A concrete world whose fetch succeeds but whose completion API answers
with text containing no JSON. -/
def garbageAiWorld : World :=
  ⟨"2024-05-01T12:00:00", FetchResp.ok "<p>x</p>",
   fun _ => Except.ok "no json here"⟩

/-- `needle` matches at the start of the argument. -/
def beginsWith : List Char → List Char → Bool
  | [], _ => true
  | _ :: _, [] => false
  | c :: cs, x :: xs => if c = x then beginsWith cs xs else false

/-- `needle` occurs as a contiguous substring. -/
def containsSub (needle : List Char) : List Char → Bool
  | [] => beginsWith needle []
  | x :: xs => if beginsWith needle (x :: xs) then true else containsSub needle xs

/-- The space-joined match list of the seven patterns, before truncation. -/
def joinedMatches (html : String) : String :=
  spaceJoin (allMatches html)

/-- One 27-character select block, the unit of the big-page witness. -/
def blockStr : String := "<select name=\"a\">x</select>"

def blockChars : List Char := blockStr.toList

/-- `n` adjacent copies of the block. -/
def repChars (n : Nat) : List Char := (List.replicate n blockChars).flatten

/-- A page of 300 adjacent select blocks: 8100 matched characters, 8399 once
space-joined. -/
def bigHtml : String := String.mk (repChars 300)

/-- The select block of the round-trip scenario: mixed case and newlines, to
exhibit the case-insensitive multi-line matching. -/
def sizeSelectBlock : String :=
  "<Select name=\"size\">\n<option>S</option>\n<option>M</option>\n</SELECT>"

def roundTripHtml : String :=
  "<html><body><p>Talla:</p>" ++ sizeSelectBlock ++ "</body></html>"

/-!
## Theorems
-/

-- sanity examples (claims refer to these behaviours)
example :
    urlparse "https://shop.example/cat?color=red&color=blue" =
      .ok ⟨"https", "shop.example", "/cat", "", "color=red&color=blue", ""⟩ := by
  rfl

example :
    parse_qs "a=1&a=2&b=3" = [("a", ["1", "2"]), ("b", ["3"])] := by rfl

example :
    extract_url_parameters "https://shop.example/cat?color=red&color=blue&sort=price_asc" =
      .ok ⟨"shop.example", "/cat",
        [("color", ParamVal.strs ["red", "blue"]), ("sort", ParamVal.str "price_asc")]⟩ := by
  rfl

example : unquote "caf%C3%A9%20bar" = "café bar" := by rfl

example : parse_qsl "x=a%2Bb&y=c+d" = [("x", "a+b"), ("y", "c d")] := by rfl

-- sanity examples
example : extract_filter_elements "" = "" := by rfl

example :
    extract_filter_elements "<p>x</p><select name=\"size\"><option>S</option></select>" =
      "<select name=\"size\"><option>S</option></select>" := by rfl

example :
    extract_filter_elements
        "<DIV class=\"side filters\" id=\"f\">a</div><div class=\"facet-box\">b</div>" =
      "<DIV class=\"side filters\" id=\"f\">a</div> <div class=\"facet-box\">b</div>" := by
  rfl

example :
    findallMatches [RE.lit "<input", RE.notStar ['>'], RE.lit "type=\"checkbox\"",
      RE.notStar ['>'], RE.lit ">", RE.lazyStar, RE.look ["<input", "</div>", "</form>"]]
      "<input type=\"checkbox\" id=\"a\">one<input type=\"checkbox\" id=\"b\">two</div>" =
      ["<input type=\"checkbox\" id=\"a\">one", "<input type=\"checkbox\" id=\"b\">two"] := by
  rfl

-- sanity examples
example :
    jsonLoads " \x7b\"a\": [1, -2.5, true], \"b\": null\x7d " =
      .ok (JsonV.obj [("a", JsonV.arr [JsonV.int 1, JsonV.float "-2.5", JsonV.bool true]),
                      ("b", JsonV.null)]) := by rfl

example : jsonLoads "no json here" = .error "Expecting value" := by rfl

example : jsonLoads "1 x" = .error "Extra data" := by rfl

-- sanity examples
example :
    (extract_filters garbageAiWorld "https://a.example/" true).1.filters =
      JsonV.obj [("error", JsonV.str "Expecting value")] := by rfl

example :
    (extract_filters garbageAiWorld "https://a.example/" true).1.success = true := by rfl

example :
    (extract_filters failWorld "https://a.example/" true).1.error = some noContentMsg := by
  rfl

example :
    (extract_filters failWorld "https://a.example/cat?a=1&a=2&b=3" false).1.filters =
      JsonV.obj [("url_parameters",
        JsonV.obj [("a", JsonV.arr [JsonV.str "1", JsonV.str "2"]), ("b", JsonV.str "3")])] := by
  rfl

example : main_url_gate "example.com/path" = false := by rfl

example : main_url_gate "https://a.example/x" = true := by rfl

/-!
## Helper lemmas
-/

theorem extract_url_parameters_of_urlparse {url : String} {p : ParseResult}
    (hp : urlparse url = .ok p) :
    extract_url_parameters url = .ok ⟨p.netloc, p.path, cleanParams (parse_qs p.query)⟩ := by
  simp [extract_url_parameters, hp, Except.map]

theorem extract_filters_parse_error (w : World) (url : String) (ih : Bool) (e : String)
    (h : extract_url_parameters url = .error e) :
    extract_filters w url ih =
      (⟨url, w.timestamp, none, JsonV.obj [], false, some e⟩, ⟨0, 0⟩) := by
  simp [extract_filters, h]

theorem extract_filters_url_only (w : World) (url : String) (ua : UrlAnalysis)
    (h : extract_url_parameters url = .ok ua) :
    extract_filters w url false =
      (⟨url, w.timestamp, some ua,
        JsonV.obj [("url_parameters", paramsToJson ua.parameters)], true, none⟩, ⟨0, 0⟩) := by
  simp [extract_filters, h]

theorem extract_filters_fetch_exn (w : World) (url : String) (ua : UrlAnalysis) (m : String)
    (h : extract_url_parameters url = .ok ua) (hf : w.fetchResp = FetchResp.exn m) :
    extract_filters w url true =
      (⟨url, w.timestamp, some ua, JsonV.obj [], false, some m⟩, ⟨1, 0⟩) := by
  simp [extract_filters, h, hf, scrape_page_content]

theorem extract_filters_fetch_falsy (w : World) (url : String) (ua : UrlAnalysis)
    (hc : Option String) (h : extract_url_parameters url = .ok ua)
    (hs : scrape_page_content w.fetchResp = .ok hc) (ht : pyTruthy hc = false) :
    extract_filters w url true =
      (⟨url, w.timestamp, some ua, JsonV.obj [], false, some noContentMsg⟩, ⟨1, 0⟩) := by
  simp [extract_filters, h, hs, ht]

theorem extract_filters_fetch_ok (w : World) (url : String) (ua : UrlAnalysis) (t : String)
    (h : extract_url_parameters url = .ok ua) (hf : w.fetchResp = FetchResp.ok t)
    (ht : ¬ t = "") :
    extract_filters w url true =
      (⟨url, w.timestamp, some ua,
        analyze_with_openai w.aiCall url t ua.parameters, true, none⟩, ⟨1, 1⟩) := by
  simp [extract_filters, h, hf, scrape_page_content, pyTruthy, ht]

theorem foldl_append_flatten {α β : Type} (f : α → List β) (l : List α) (acc : List β) :
    l.foldl (fun a x => a ++ f x) acc = acc ++ (l.map f).flatten := by
  induction l generalizing acc with
  | nil => simp
  | cons x xs ih => simp [ih, List.append_assoc]

/-- Every branch of `extract_filters` yields an envelope carrying the request
URL and the timestamp, and sets an error only when success is false. -/
theorem extract_filters_shape (w : World) (url : String) (ih : Bool) :
    ∃ ua fl su er lg,
      extract_filters w url ih = (⟨url, w.timestamp, ua, fl, su, er⟩, lg) ∧
      (su = true → er = none) := by
  cases hE : extract_url_parameters url with
  | error e =>
    exact ⟨none, _, _, _, _, extract_filters_parse_error w url ih e hE,
           fun h => nomatch h⟩
  | ok ua =>
    cases ih with
    | false =>
      exact ⟨some ua, _, _, _, _, extract_filters_url_only w url ua hE, fun _ => rfl⟩
    | true =>
      cases hf : w.fetchResp with
      | ok t =>
        by_cases ht : t = ""
        · subst ht
          exact ⟨some ua, _, _, _, _,
            extract_filters_fetch_falsy w url ua (some "") hE (by rw [hf]; rfl) rfl,
            fun h => nomatch h⟩
        · exact ⟨some ua, _, _, _, _,
            extract_filters_fetch_ok w url ua t hE hf ht, fun _ => rfl⟩
      | reqErr m =>
        exact ⟨some ua, _, _, _, _,
          extract_filters_fetch_falsy w url ua none hE (by rw [hf]; rfl) rfl,
          fun h => nomatch h⟩
      | exn m =>
        exact ⟨some ua, _, _, _, _, extract_filters_fetch_exn w url ua m hE hf,
          fun h => nomatch h⟩

theorem alookup_cleanParams (m : List (String × List String)) (k : String) :
    alookup (cleanParams m) k = (alookup m k).map collapseVal := by
  induction m with
  | nil => rfl
  | cons kv rest ih =>
    obtain ⟨k0, vs⟩ := kv
    by_cases h : k0 = k
    · simp [cleanParams, alookup, h]
    · simpa [cleanParams, alookup, h] using ih

theorem processAiResponse_of_fails {resp : Except String String}
    (h : aiRespFails resp = true) :
    ∃ m, processAiResponse resp = JsonV.obj [("error", JsonV.str m)] := by
  cases resp with
  | error e => exact ⟨e, rfl⟩
  | ok text =>
    unfold aiRespFails at h
    unfold processAiResponse
    cases hb : braceSearch (pyStrip text) with
    | some matched =>
      simp only [hb] at h ⊢
      cases hj : jsonLoads matched with
      | ok v => simp [hj] at h
      | error e => exact ⟨e, by simp [hj]⟩
    | none =>
      simp only [hb] at h ⊢
      cases hj : jsonLoads (pyStrip text) with
      | ok v => simp [hj] at h
      | error e => exact ⟨e, by simp [hj]⟩

/-!
## Claims
-/

/-- C2 counterexample: `extract_filters` itself does not reject a URL whose
parsed scheme and host are both empty; in full mode it invokes
`scrape_page_content` (fetcher call count 1, not 0) for such a URL. -/
theorem fetcher_called_for_schemeless_url :
    (urlparse "example.com/path").map (fun p => (p.scheme, p.netloc)) =
      .ok ("", "") ∧
    (extract_filters failWorld "example.com/path" true).2.scrape_calls = 1 :=
  ⟨rfl, rfl⟩

/-- C2 amended: the scheme/host validation lives in the presentation layer
`main`, whose URL gate refuses to run the analysis for a URL whose parsed
scheme or host is empty; `extract_filters` itself performs no such check and
invokes the fetcher whenever URL parsing succeeds in full mode. -/
theorem url_rejection_in_main_gate :
    (∀ url p, urlparse url = .ok p → (p.scheme = "" ∨ p.netloc = "") →
      main_url_gate url = false) ∧
    (∀ (w : World) url ua, extract_url_parameters url = .ok ua →
      (extract_filters w url true).2.scrape_calls = 1) := by
  constructor
  · intro url p hp hd
    unfold main_url_gate
    rw [hp]
    rcases hd with h | h <;> simp [h]
  · intro w url ua hu
    unfold extract_filters
    rw [hu]
    cases hs : scrape_page_content w.fetchResp with
    | error e => simp [hs]
    | ok hc => cases ht : pyTruthy hc <;> simp [hs, ht]

theorem url_rejection_in_main_gate_witness :
    (urlparse "nohost" = .ok ⟨"", "", "nohost", "", "", ""⟩) ∧
    main_url_gate "nohost" = false ∧
    (extract_url_parameters "https://a.example/x" =
      .ok ⟨"a.example", "/x", []⟩) ∧
    (extract_filters failWorld "https://a.example/x" true).2.scrape_calls = 1 :=
  ⟨rfl, url_rejection_in_main_gate.1 "nohost" ⟨"", "", "nohost", "", "", ""⟩ rfl (.inl rfl),
   rfl, url_rejection_in_main_gate.2 failWorld "https://a.example/x" ⟨"a.example", "/x", []⟩ rfl⟩

/-- C3 counterexample: for a URL with a non-empty scheme, the `domain` field
of `extract_url_parameters` is the bare netloc; it does not equal scheme plus
host under any concatenation reading. -/
theorem domain_field_lacks_scheme :
    extract_url_parameters "https://shop.example/cat?x=1" =
      .ok ⟨"shop.example", "/cat", [("x", ParamVal.str "1")]⟩ ∧
    (urlparse "https://shop.example/cat?x=1").map ParseResult.scheme = .ok "https" ∧
    ¬ ("shop.example" = "https://shop.example") ∧
    ¬ ("shop.example" = "httpsshop.example") ∧
    ¬ ("shop.example" = "https:shop.example") :=
  ⟨rfl, rfl, by decide, by decide, by decide⟩

/-- C3 amended: for every URL accepted by the parser, the returned `domain`
equals the netloc (host, without the scheme) and `path` equals the parsed
path. -/
theorem domain_is_netloc_path_is_path (url : String) (p : ParseResult)
    (hp : urlparse url = .ok p) :
    ∃ ua, extract_url_parameters url = .ok ua ∧
      ua.domain = p.netloc ∧ ua.path = p.path :=
  ⟨_, extract_url_parameters_of_urlparse hp, rfl, rfl⟩

theorem domain_is_netloc_path_is_path_witness :
    (urlparse "https://shop.example/cat?x=1" =
      .ok ⟨"https", "shop.example", "/cat", "", "x=1", ""⟩) ∧
    ∃ ua, extract_url_parameters "https://shop.example/cat?x=1" = .ok ua ∧
      ua.domain = "shop.example" ∧ ua.path = "/cat" :=
  ⟨rfl, domain_is_netloc_path_is_path "https://shop.example/cat?x=1"
    ⟨"https", "shop.example", "/cat", "", "x=1", ""⟩ rfl⟩

/-- C5: in full mode, when the fetch yields no content the envelope is marked
unsuccessful with the explanatory message, the filters stay empty, and the
interpreter is never invoked. -/
theorem fetch_none_marks_failure_skips_interpreter
    (w : World) (url : String) (ua : UrlAnalysis)
    (hu : extract_url_parameters url = .ok ua)
    (hs : scrape_page_content w.fetchResp = .ok none) :
    (extract_filters w url true).1.success = false ∧
    (extract_filters w url true).1.error = some noContentMsg ∧
    (extract_filters w url true).1.filters = JsonV.obj [] ∧
    (extract_filters w url true).2.analyze_calls = 0 := by
  rw [extract_filters_fetch_falsy w url ua none hu hs rfl]
  exact ⟨rfl, rfl, rfl, rfl⟩

theorem fetch_none_marks_failure_skips_interpreter_witness :
    (extract_url_parameters "https://a.example/cat" =
      .ok ⟨"a.example", "/cat", []⟩) ∧
    (scrape_page_content failWorld.fetchResp = .ok none) ∧
    ((extract_filters failWorld "https://a.example/cat" true).1.success = false ∧
     (extract_filters failWorld "https://a.example/cat" true).1.error = some noContentMsg ∧
     (extract_filters failWorld "https://a.example/cat" true).1.filters = JsonV.obj [] ∧
     (extract_filters failWorld "https://a.example/cat" true).2.analyze_calls = 0) :=
  ⟨rfl, rfl, fetch_none_marks_failure_skips_interpreter failWorld "https://a.example/cat"
    ⟨"a.example", "/cat", []⟩ rfl rfl⟩

/-- C6 counterexample: a URL string on which the URL parser raises (here a
netloc with an unmatched bracket) makes URL-only mode return an unsuccessful
envelope whose filters are empty, not the `url_parameters` object. -/
theorem url_only_mode_parse_error_not_success :
    (extract_filters failWorld "https://]" false).1.success = false ∧
    (extract_filters failWorld "https://]" false).1.filters = JsonV.obj [] ∧
    (extract_filters failWorld "https://]" false).1.error = some "Invalid IPv6 URL" :=
  ⟨rfl, rfl, rfl⟩

/-- C6 amended: for every URL string the parser accepts, URL-only mode
returns exactly the parsed parameters under `url_parameters`, marked
successful, with neither the fetcher nor the interpreter invoked. -/
theorem url_only_mode_exact_filters (w : World) (url : String) (p : ParseResult)
    (hp : urlparse url = .ok p) :
    (extract_filters w url false).1.filters =
      JsonV.obj [("url_parameters", paramsToJson (cleanParams (parse_qs p.query)))] ∧
    (extract_filters w url false).1.success = true ∧
    (extract_filters w url false).2.scrape_calls = 0 ∧
    (extract_filters w url false).2.analyze_calls = 0 := by
  rw [extract_filters_url_only w url _ (extract_url_parameters_of_urlparse hp)]
  exact ⟨rfl, rfl, rfl, rfl⟩

theorem url_only_mode_exact_filters_witness :
    (urlparse "https://shop.example/cat?a=1&a=2&b=3" =
      .ok ⟨"https", "shop.example", "/cat", "", "a=1&a=2&b=3", ""⟩) ∧
    ((extract_filters failWorld "https://shop.example/cat?a=1&a=2&b=3" false).1.filters =
      JsonV.obj [("url_parameters",
        JsonV.obj [("a", JsonV.arr [JsonV.str "1", JsonV.str "2"]),
                   ("b", JsonV.str "3")])] ∧
     (extract_filters failWorld "https://shop.example/cat?a=1&a=2&b=3" false).1.success = true ∧
     (extract_filters failWorld "https://shop.example/cat?a=1&a=2&b=3" false).2.scrape_calls = 0 ∧
     (extract_filters failWorld "https://shop.example/cat?a=1&a=2&b=3" false).2.analyze_calls = 0) :=
  ⟨rfl, url_only_mode_exact_filters failWorld "https://shop.example/cat?a=1&a=2&b=3"
    ⟨"https", "shop.example", "/cat", "", "a=1&a=2&b=3", ""⟩ rfl⟩

/-- C10 counterexample: `extract_filters` in URL-only mode is not successful
for every input string: a string on which the URL parser raises yields
`success = false`. -/
theorem url_only_mode_bracket_url_fails :
    (extract_filters failWorld "http://[" false).1.success = false ∧
    (extract_filters failWorld "http://[" false).1.error = some "Invalid IPv6 URL" :=
  ⟨rfl, rfl⟩

/-- C10 amended: URL-only mode never touches the network and performs no
scheme/host validation; it succeeds for every string the URL parser accepts
(no matter how unlike a URL), and fails only when the parser itself raises
(mismatched brackets), with the caught message recorded. -/
theorem url_only_no_validation_no_network (w : World) (url : String) :
    ((extract_filters w url false).2.scrape_calls = 0 ∧
     (extract_filters w url false).2.analyze_calls = 0) ∧
    (∀ p, urlparse url = .ok p → (extract_filters w url false).1.success = true) ∧
    (∀ m, urlparse url = .error m →
      (extract_filters w url false).1.success = false ∧
      (extract_filters w url false).1.error = some m) := by
  cases hp : urlparse url with
  | error m0 =>
    have hE : extract_url_parameters url = .error m0 := by
      simp [extract_url_parameters, hp, Except.map]
    rw [extract_filters_parse_error w url false m0 hE]
    refine ⟨⟨rfl, rfl⟩, ?_, ?_⟩
    · intro p hp2
      cases hp2
    · intro m hm
      injection hm with h
      subst h
      exact ⟨rfl, rfl⟩
  | ok p0 =>
    rw [extract_filters_url_only w url _ (extract_url_parameters_of_urlparse hp)]
    refine ⟨⟨rfl, rfl⟩, fun p _ => rfl, ?_⟩
    intro m hm
    cases hm

theorem url_only_no_validation_no_network_witness :
    ((extract_filters failWorld "not a url" false).2.scrape_calls = 0) ∧
    (urlparse "not a url" = .ok ⟨"", "", "not a url", "", "", ""⟩) ∧
    ((extract_filters failWorld "not a url" false).1.success = true) :=
  ⟨(url_only_no_validation_no_network failWorld "not a url").1.1, rfl,
   (url_only_no_validation_no_network failWorld "not a url").2.1
     ⟨"", "", "not a url", "", "", ""⟩ rfl⟩

/-- C1: in full mode with a fetched non-empty page, whenever the completion
API outcome makes the interpreter fail (API error, a response with no
parseable JSON, or a malformed braced substring), the envelope still has
`success = true` while its `filters` field is the structured object
`\x7b"error": message\x7d`; and the success flag is `true` for every
completion oracle whatsoever — the orchestrator never inspects the
interpreter result. -/
theorem interpreter_failure_keeps_success_true (w : World) (url t : String)
    (ua : UrlAnalysis)
    (hu : extract_url_parameters url = .ok ua)
    (hf : w.fetchResp = FetchResp.ok t) (ht : ¬ t = "")
    (hai : ∀ q, aiRespFails (w.aiCall q) = true) :
    ((extract_filters w url true).1.success = true ∧
     ∃ m, (extract_filters w url true).1.filters =
        JsonV.obj [("error", JsonV.str m)]) ∧
    (∀ g : String → Except String String,
      (extract_filters { w with aiCall := g } url true).1.success = true) := by
  constructor
  · rw [extract_filters_fetch_ok w url ua t hu hf ht]
    refine ⟨rfl, ?_⟩
    unfold analyze_with_openai
    exact processAiResponse_of_fails (hai _)
  · intro g
    rw [extract_filters_fetch_ok { w with aiCall := g } url ua t hu hf ht]

theorem interpreter_failure_keeps_success_true_witness :
    (extract_url_parameters "https://a.example/" = .ok ⟨"a.example", "/", []⟩) ∧
    garbageAiWorld.fetchResp = FetchResp.ok "<p>x</p>" ∧
    ¬ ("<p>x</p>" = "") ∧
    aiRespFails (garbageAiWorld.aiCall "") = true ∧
    ((extract_filters garbageAiWorld "https://a.example/" true).1.success = true ∧
     ∃ m, (extract_filters garbageAiWorld "https://a.example/" true).1.filters =
        JsonV.obj [("error", JsonV.str m)]) :=
  ⟨rfl, rfl, by decide, rfl,
   (interpreter_failure_keeps_success_true garbageAiWorld "https://a.example/" "<p>x</p>"
     ⟨"a.example", "/", []⟩ rfl rfl (by decide) (fun _ => rfl)).1⟩

/-- C4: for a URL the parser accepts, every key of the query mapping whose
`parse_qs` value list is a singleton appears in `parameters` as the bare
scalar, every key with two or more values appears as the ordered value list,
and no key is ever bound to a one-element list. -/
theorem repeated_keys_list_single_keys_scalar (url : String) (p : ParseResult)
    (ua : UrlAnalysis) (k : String) (vs : List String)
    (hp : urlparse url = .ok p)
    (hu : extract_url_parameters url = .ok ua)
    (hv : alookup (parse_qs p.query) k = some vs) :
    (∀ v, vs = [v] → alookup ua.parameters k = some (ParamVal.str v)) ∧
    (2 ≤ vs.length → alookup ua.parameters k = some (ParamVal.strs vs)) ∧
    (∀ v, ¬ alookup ua.parameters k = some (ParamVal.strs [v])) := by
  have h2 := extract_url_parameters_of_urlparse hp
  rw [hu] at h2
  injection h2 with h3
  have hpar : ua.parameters = cleanParams (parse_qs p.query) := by rw [h3]
  rw [hpar, alookup_cleanParams, hv]
  refine ⟨?_, ?_, ?_⟩
  · intro v hvs
    subst hvs
    rfl
  · intro hlen
    match vs, hlen with
    | a :: b :: t, _ => rfl
  · intro v hcontra
    have h4 : collapseVal vs = ParamVal.strs [v] := by simpa using hcontra
    match vs, h4 with
    | [x], h4 => exact nomatch h4
    | a :: b :: t, h4 =>
      have h5 : ParamVal.strs (a :: b :: t) = ParamVal.strs [v] := h4
      injection h5 with h6
      simp at h6
    | [], h4 => exact nomatch h4

theorem repeated_keys_list_single_keys_scalar_witness :
    (urlparse "https://shop.example/c?a=1&a=2&b=3" =
      .ok ⟨"https", "shop.example", "/c", "", "a=1&a=2&b=3", ""⟩) ∧
    (extract_url_parameters "https://shop.example/c?a=1&a=2&b=3" =
      .ok ⟨"shop.example", "/c",
        [("a", ParamVal.strs ["1", "2"]), ("b", ParamVal.str "3")]⟩) ∧
    (alookup (parse_qs "a=1&a=2&b=3") "a" = some ["1", "2"]) ∧
    (alookup ([("a", ParamVal.strs ["1", "2"]), ("b", ParamVal.str "3")] :
        List (String × ParamVal)) "a" = some (ParamVal.strs ["1", "2"])) ∧
    (alookup (parse_qs "a=1&a=2&b=3") "b" = some ["3"]) ∧
    (alookup ([("a", ParamVal.strs ["1", "2"]), ("b", ParamVal.str "3")] :
        List (String × ParamVal)) "b" = some (ParamVal.str "3")) :=
  ⟨rfl, rfl, rfl,
   (repeated_keys_list_single_keys_scalar "https://shop.example/c?a=1&a=2&b=3"
     ⟨"https", "shop.example", "/c", "", "a=1&a=2&b=3", ""⟩
     ⟨"shop.example", "/c", [("a", ParamVal.strs ["1", "2"]), ("b", ParamVal.str "3")]⟩
     "a" ["1", "2"] rfl rfl rfl).2.1 (by decide),
   rfl,
   (repeated_keys_list_single_keys_scalar "https://shop.example/c?a=1&a=2&b=3"
     ⟨"https", "shop.example", "/c", "", "a=1&a=2&b=3", ""⟩
     ⟨"shop.example", "/c", [("a", ParamVal.strs ["1", "2"]), ("b", ParamVal.str "3")]⟩
     "b" ["3"] rfl rfl rfl).1 "3" rfl⟩

/-- C9: `extract_filters` never propagates an exception: the envelope always
comes back carrying the request URL and the timestamp; a URL-parse exception
is recorded as the error string on the otherwise-initial envelope; a
non-request exception thrown out of the fetch is recorded with the already
computed URL analysis retained; and whenever `success` is true no error is
recorded (an exception can only occur before success is set). -/
theorem pipeline_catches_all_exceptions (w : World) (url : String) (ih : Bool) :
    ((extract_filters w url ih).1.url = url ∧
     (extract_filters w url ih).1.timestamp = w.timestamp) ∧
    (∀ m, urlparse url = .error m →
      (extract_filters w url ih).1 =
        ⟨url, w.timestamp, none, JsonV.obj [], false, some m⟩) ∧
    (∀ m p, urlparse url = .ok p → ih = true → w.fetchResp = FetchResp.exn m →
      (extract_filters w url ih).1 =
        ⟨url, w.timestamp, some ⟨p.netloc, p.path, cleanParams (parse_qs p.query)⟩,
         JsonV.obj [], false, some m⟩) ∧
    ((extract_filters w url ih).1.success = true →
      (extract_filters w url ih).1.error = none) := by
  obtain ⟨ua, fl, su, er, lg, heq, himp⟩ := extract_filters_shape w url ih
  refine ⟨?_, ?_, ?_, ?_⟩
  · rw [heq]
    exact ⟨rfl, rfl⟩
  · intro m hm
    have hE : extract_url_parameters url = .error m := by
      simp [extract_url_parameters, hm, Except.map]
    rw [extract_filters_parse_error w url ih m hE]
  · intro m p hp hih hf
    subst hih
    rw [extract_filters_fetch_exn w url _ m (extract_url_parameters_of_urlparse hp) hf]
  · rw [heq]
    exact himp

theorem pipeline_catches_all_exceptions_witness :
    (urlparse "http://[" = .error "Invalid IPv6 URL") ∧
    (extract_filters failWorld "http://[" true).1 =
      ⟨"http://[", failWorld.timestamp, none, JsonV.obj [], false,
       some "Invalid IPv6 URL"⟩ :=
  ⟨rfl, (pipeline_catches_all_exceptions failWorld "http://[" true).2.1
    "Invalid IPv6 URL" rfl⟩

/-- C7: the extractor output never exceeds 8000 characters, and whenever the
space-joined matches exceed 8000 characters the output is exactly their
first 8000 characters (length exactly 8000). -/
theorem extractor_truncates_to_8000 :
    (∀ html, (extract_filter_elements html).length ≤ 8000) ∧
    (∀ html, 8000 < (joinedMatches html).length →
      extract_filter_elements html = pySlice (joinedMatches html) 8000 ∧
      (extract_filter_elements html).length = 8000) := by
  constructor
  · intro html
    by_cases h : html = ""
    · simp [extract_filter_elements, h]
    · show (extract_filter_elements html).length ≤ 8000
      have he : extract_filter_elements html = pySlice (joinedMatches html) 8000 := by
        simp [extract_filter_elements, joinedMatches, h]
      rw [he]
      show (List.take 8000 (joinedMatches html).toList).length ≤ 8000
      rw [List.length_take]
      omega
  · intro html hlen
    have h : ¬ html = "" := by
      intro he
      subst he
      have hz : joinedMatches "" = "" := by rfl
      rw [hz] at hlen
      exact absurd hlen (by decide)
    have he : extract_filter_elements html = pySlice (joinedMatches html) 8000 := by
      simp [extract_filter_elements, joinedMatches, h]
    refine ⟨he, ?_⟩
    rw [he]
    show (List.take 8000 (joinedMatches html).toList).length = 8000
    rw [List.length_take]
    have : (joinedMatches html).toList.length = (joinedMatches html).length := rfl
    omega

theorem matchSeq_select_block (r : List Char) :
    matchSeq reSelectName (blockChars ++ r) = some (blockChars, r) := rfl

theorem scan_step_select (fuel : Nat) (r : List Char) :
    scanAllAux reSelectName (fuel + 1) (blockChars ++ r) =
      blockChars :: scanAllAux reSelectName fuel r := rfl

theorem scan_step_divFilter (fuel : Nat) (r : List Char) :
    scanAllAux reDivFilter (fuel + 27) (blockChars ++ r) =
      scanAllAux reDivFilter fuel r := rfl

theorem scan_step_asideSidebar (fuel : Nat) (r : List Char) :
    scanAllAux reAsideSidebar (fuel + 27) (blockChars ++ r) =
      scanAllAux reAsideSidebar fuel r := rfl

theorem scan_step_formFilter (fuel : Nat) (r : List Char) :
    scanAllAux reFormFilter (fuel + 27) (blockChars ++ r) =
      scanAllAux reFormFilter fuel r := rfl

theorem scan_step_divFacet (fuel : Nat) (r : List Char) :
    scanAllAux reDivFacet (fuel + 27) (blockChars ++ r) =
      scanAllAux reDivFacet fuel r := rfl

theorem scan_step_inputCheckbox (fuel : Nat) (r : List Char) :
    scanAllAux reInputCheckbox (fuel + 27) (blockChars ++ r) =
      scanAllAux reInputCheckbox fuel r := rfl

theorem scan_step_ulCategory (fuel : Nat) (r : List Char) :
    scanAllAux reUlCategory (fuel + 27) (blockChars ++ r) =
      scanAllAux reUlCategory fuel r := rfl

theorem scanAllAux_nil (p : List RE) (h : matchSeq p [] = none) :
    ∀ fuel, scanAllAux p fuel [] = []
  | 0 => rfl
  | fuel + 1 => by simp [scanAllAux, h]

theorem scanAllAux_select_rep : ∀ n fuel : Nat,
    scanAllAux reSelectName (n + (fuel + 1)) (repChars n) = List.replicate n blockChars
  | 0, fuel => by
    have h0 : repChars 0 = [] := rfl
    rw [h0, Nat.zero_add]
    exact scanAllAux_nil reSelectName rfl (fuel + 1)
  | n + 1, fuel => by
    have harith : (n + 1) + (fuel + 1) = (n + (fuel + 1)) + 1 := by omega
    have hrep : repChars (n + 1) = blockChars ++ repChars n := rfl
    rw [hrep, harith, scan_step_select (n + (fuel + 1)) (repChars n),
        scanAllAux_select_rep n fuel]
    rfl

theorem scanAllAux_rep_of_step (p : List RE)
    (hstep : ∀ fuel r, scanAllAux p (fuel + 27) (blockChars ++ r) = scanAllAux p fuel r)
    (hnil : matchSeq p [] = none) :
    ∀ n fuel : Nat, scanAllAux p (27 * n + (fuel + 1)) (repChars n) = []
  | 0, fuel => by
    have h0 : repChars 0 = [] := rfl
    rw [h0]
    exact scanAllAux_nil p hnil (27 * 0 + (fuel + 1))
  | n + 1, fuel => by
    have harith : 27 * (n + 1) + (fuel + 1) = (27 * n + (fuel + 1)) + 27 := by omega
    have hrep : repChars (n + 1) = blockChars ++ repChars n := rfl
    rw [hrep, harith, hstep (27 * n + (fuel + 1)) (repChars n)]
    exact scanAllAux_rep_of_step p hstep hnil n fuel

theorem repChars_length : ∀ n, (repChars n).length = 27 * n
  | 0 => rfl
  | n + 1 => by
    have hrep : repChars (n + 1) = blockChars ++ repChars n := rfl
    have hb : blockChars.length = 27 := rfl
    rw [hrep, List.length_append, repChars_length n, hb]
    omega

theorem scanAll_select_big :
    scanAll reSelectName (repChars 300) = List.replicate 300 blockChars := by
  unfold scanAll
  rw [repChars_length]
  have h : 27 * 300 + 1 = 300 + (7800 + 1) := by norm_num
  rw [h]
  exact scanAllAux_select_rep 300 7800

theorem scanAll_fail_big (p : List RE)
    (hstep : ∀ fuel r, scanAllAux p (fuel + 27) (blockChars ++ r) = scanAllAux p fuel r)
    (hnil : matchSeq p [] = none) :
    scanAll p (repChars 300) = [] := by
  unfold scanAll
  rw [repChars_length]
  have h : 27 * 300 + 1 = 27 * 300 + (0 + 1) := by norm_num
  rw [h]
  exact scanAllAux_rep_of_step p hstep hnil 300 0

theorem findall_select_big :
    findallMatches reSelectName bigHtml = List.replicate 300 blockStr := by
  unfold findallMatches
  have h1 : bigHtml.toList = repChars 300 := rfl
  rw [h1, scanAll_select_big, List.map_replicate]
  rfl

theorem findall_fail_big (p : List RE) (h : scanAll p (repChars 300) = []) :
    findallMatches p bigHtml = [] := by
  unfold findallMatches
  have h1 : bigHtml.toList = repChars 300 := rfl
  rw [h1, h]
  rfl

theorem allMatches_bigHtml : allMatches bigHtml = List.replicate 300 blockStr := by
  have h2 : allMatches bigHtml =
      (filter_patterns.map (fun p => findallMatches p bigHtml)).flatten :=
    (foldl_append_flatten (fun p => findallMatches p bigHtml) filter_patterns []).trans
      (List.nil_append _)
  rw [h2]
  show (List.flatten [findallMatches reDivFilter bigHtml,
    findallMatches reAsideSidebar bigHtml, findallMatches reFormFilter bigHtml,
    findallMatches reDivFacet bigHtml, findallMatches reSelectName bigHtml,
    findallMatches reInputCheckbox bigHtml, findallMatches reUlCategory bigHtml]) = _
  rw [findall_fail_big reDivFilter (scanAll_fail_big reDivFilter scan_step_divFilter rfl),
      findall_fail_big reAsideSidebar
        (scanAll_fail_big reAsideSidebar scan_step_asideSidebar rfl),
      findall_fail_big reFormFilter (scanAll_fail_big reFormFilter scan_step_formFilter rfl),
      findall_fail_big reDivFacet (scanAll_fail_big reDivFacet scan_step_divFacet rfl),
      findall_select_big,
      findall_fail_big reInputCheckbox
        (scanAll_fail_big reInputCheckbox scan_step_inputCheckbox rfl),
      findall_fail_big reUlCategory (scanAll_fail_big reUlCategory scan_step_ulCategory rfl)]
  simp only [List.flatten_cons, List.flatten_nil, List.nil_append, List.append_nil]

theorem spaceJoin_rep_block_length :
    ∀ n, (spaceJoin (List.replicate (n + 1) blockStr)).length = (n + 1) * 27 + n
  | 0 => rfl
  | n + 1 => by
    have h1 : spaceJoin (List.replicate (n + 2) blockStr) =
        blockStr ++ " " ++ spaceJoin (List.replicate (n + 1) blockStr) := rfl
    rw [h1, String.length_append, String.length_append,
        spaceJoin_rep_block_length n]
    have hb : blockStr.length = 27 := rfl
    have hs : (" " : String).length = 1 := rfl
    rw [hb, hs]
    omega

theorem extractor_truncates_to_8000_witness :
    8000 < (joinedMatches bigHtml).length ∧
    (extract_filter_elements bigHtml = pySlice (joinedMatches bigHtml) 8000 ∧
     (extract_filter_elements bigHtml).length = 8000) := by
  have h : 8000 < (joinedMatches bigHtml).length := by
    have h1 : joinedMatches bigHtml = spaceJoin (List.replicate 300 blockStr) := by
      unfold joinedMatches
      rw [allMatches_bigHtml]
    rw [h1]
    have h2 : (300 : Nat) = 299 + 1 := by norm_num
    rw [h2, spaceJoin_rep_block_length 299]
    norm_num
  exact ⟨h, extractor_truncates_to_8000.2 bigHtml h⟩

/-- C8: the extractor applies the seven patterns in their fixed order (the
match list is the pattern-by-pattern concatenation of the per-pattern
`findall` results, each in match order), joins the matches with single
spaces and truncates to 8000 characters; empty input yields the empty
string; and a page containing one `select` block (matched case-insensitively
across newlines) yields that block verbatim. -/
theorem extractor_pattern_order_and_verbatim :
    (extract_filter_elements "" = "") ∧
    (∀ html, allMatches html =
      (filter_patterns.map (fun p => findallMatches p html)).flatten) ∧
    (∀ html, ¬ html = "" →
      extract_filter_elements html = pySlice (spaceJoin (allMatches html)) 8000) ∧
    (extract_filter_elements roundTripHtml = sizeSelectBlock) ∧
    (containsSub sizeSelectBlock.toList (extract_filter_elements roundTripHtml).toList
      = true) := by
  refine ⟨rfl, ?_, ?_, by rfl, by rfl⟩
  · intro html
    exact (foldl_append_flatten (fun p => findallMatches p html) filter_patterns []).trans
      (List.nil_append _)
  · intro html h
    simp [extract_filter_elements, h]

theorem extractor_pattern_order_and_verbatim_witness :
    (¬ roundTripHtml = "") ∧
    extract_filter_elements roundTripHtml =
      pySlice (spaceJoin (allMatches roundTripHtml)) 8000 :=
  ⟨by decide, extractor_pattern_order_and_verbatim.2.2.1 roundTripHtml (by decide)⟩

example : urlparse "example.com/path" = .ok ⟨"", "", "example.com/path", "", "", ""⟩ := by
  rfl

example : urlparse "http://[" = .error "Invalid IPv6 URL" := by rfl

example : urlparse "https://]" = .error "Invalid IPv6 URL" := by rfl
